import Mathlib

/-!
# Album service (`main.go`): request handlers over a relational table

A shallow embedding of the three route handlers registered in `main`:

* `GET /count`            (lines 54-56)
* `GET /album/:albumID`   (lines 59-83)
* `POST /add`             (lines 87-111)

The handlers are embedded as state-passing functions on a `World` that holds the
rows of `new_table` and the trace of effects issued so far.  The collaborators the
handlers call into are modelled only as far as the handlers use them:

* `c.ShouldBindJSON(&newAlbum)`: decoding of one JSON value into the anonymous
  struct of lines 88-92 (`ShouldBindJSON`);
* `uuid.New().String()`: a version-4 identifier printed in canonical form
  (`NewRandom`, `encodeHex`);
* `db.QueryRow(...).Scan(...)` and `db.Exec(...)` for the two SQL statements of
  lines 70 and 100 (`dbQueryRowScan`, `dbExec`).

What the environment decides (the random bytes, whether the backend fails) is an
explicit argument of each handler.  How the server compares keys is not fixed by the
program either: the collation of the `albumID` column is a field of the `World`, and
every theorem that does not name one holds for all collations.
-/

set_option exponentiation.threshold 4096

namespace AlbumService

/-! ## JSON request bodies -/

/-- A JSON number literal: `(-1)^neg * mant * 10^exp`. -/
structure JNumber where
  neg : Bool
  mant : Nat
  exp : Int
  deriving DecidableEq

/-- A JSON value as read from a request body. -/
inductive JValue where
  | null
  | bool (b : Bool)
  | num (n : JNumber)
  | str (s : String)
  | arr (items : List JValue)
  | obj (members : List (String × JValue))

/-- The literal denotes a magnitude that rounds to infinity in binary64, that is
`2^1024 - 2^970 ≤ mant * 10^exp` (the midpoint between the largest finite float64
and `2^1024`, which rounds up).  Decoding such a literal into a `float64` field
fails; a literal that underflows decodes to zero without error. -/
def JNumber.overflowsFloat64 (x : JNumber) : Bool :=
  if 0 ≤ x.exp then decide (2 ^ 1024 - 2 ^ 970 ≤ x.mant * 10 ^ x.exp.toNat)
  else decide ((2 ^ 1024 - 2 ^ 970) * 10 ^ (-x.exp).toNat ≤ x.mant)

/-- A value of Go type `float64`.  The program never computes with a price, it only
forwards the decoded value to the driver, so a value is represented by the decimal
literal it was decoded from. -/
structure Float64 where
  lit : JNumber
  deriving DecidableEq

/-- The zero value of `float64`. -/
def Float64.zero : Float64 := ⟨⟨false, 0, 0⟩⟩

/-- The anonymous struct `newAlbum` of lines 88-92. -/
structure NewAlbum where
  Name : String
  Artist : String
  Price : Float64
  deriving DecidableEq

/-- The zero value `var newAlbum struct{...}` starts from. -/
def NewAlbum.zero : NewAlbum := ⟨"", "", Float64.zero⟩

/-- The three fields of `newAlbum`, named by their `json` tags. -/
inductive Field where
  | name
  | artist
  | price
  deriving DecidableEq

/-- Case folding used to match an object key against a field name: ASCII letters
fold together, and so do the two non-ASCII letters whose simple case folding is an
ASCII letter (U+017F long s, U+212A Kelvin sign). -/
def foldRune (c : Char) : Char :=
  if c = Char.ofNat 0x17F then 's'
  else if c = Char.ofNat 0x212A then 'k'
  else c.toLower

/-- A key folded rune by rune. -/
def foldName (key : String) : String := String.mk (key.data.map foldRune)

/-- The struct field an object key decodes into: the field whose `json` name equals
the key exactly or under case folding; a key matching no field is skipped. -/
def fieldOf (key : String) : Option Field :=
  if foldName key = "name" then some Field.name
  else if foldName key = "artist" then some Field.artist
  else if foldName key = "price" then some Field.price
  else none

/-- Why `ShouldBindJSON` returned a non-nil error. -/
inductive BindError where
  | malformed
  | unmarshalType
  deriving DecidableEq

/-- Decoder state while an object is read: the struct filled so far and the first
error saved (decoding continues after a type error and reports the first one). -/
structure DecodeState where
  album : NewAlbum
  savedError : Option BindError
  deriving DecidableEq

/-- Record an error unless one is already saved. -/
def DecodeState.saveError (st : DecodeState) (e : BindError) : DecodeState :=
  match st.savedError with
  | some _ => st
  | none => { st with savedError := some e }

/-- Decode one object member into the struct.  A `string` field takes a JSON string,
the `float64` field takes a JSON number within range, `null` leaves any field as it
is, every other value for a known field is a type error. -/
def decodeMember (st : DecodeState) (kv : String × JValue) : DecodeState :=
  match fieldOf kv.1 with
  | none => st
  | some Field.name =>
    match kv.2 with
    | JValue.str s => { st with album := { st.album with Name := s } }
    | JValue.null => st
    | _ => st.saveError BindError.unmarshalType
  | some Field.artist =>
    match kv.2 with
    | JValue.str s => { st with album := { st.album with Artist := s } }
    | JValue.null => st
    | _ => st.saveError BindError.unmarshalType
  | some Field.price =>
    match kv.2 with
    | JValue.num x =>
      if x.overflowsFloat64 then st.saveError BindError.unmarshalType
      else { st with album := { st.album with Price := ⟨x⟩ } }
    | JValue.null => st
    | _ => st.saveError BindError.unmarshalType

/-- Members are decoded in the order they appear in the object. -/
def decodeObject (members : List (String × JValue)) : DecodeState :=
  members.foldl decodeMember ⟨NewAlbum.zero, none⟩

/-- The call `c.ShouldBindJSON(&newAlbum)` (line 94).  The argument is the first JSON
value of the request body, `none` when the body does not start with a well-formed
one.  The struct declares no `binding` tags, so nothing is validated after decoding. -/
def ShouldBindJSON (body : Option JValue) : Except BindError NewAlbum :=
  match body with
  | none => Except.error BindError.malformed
  | some JValue.null => Except.ok NewAlbum.zero
  | some (JValue.obj members) =>
    match (decodeObject members).savedError with
    | some e => Except.error e
    | none => Except.ok (decodeObject members).album
  | some _ => Except.error BindError.unmarshalType

/-- The value an object gives to a field: that of the last member decoding into it. -/
def memberFor (members : List (String × JValue)) (f : Field) : Option JValue :=
  (members.reverse.find? fun kv => fieldOf kv.1 = some f).map Prod.snd

/-- The member has the JSON type of the field it decodes into: a string for `name`
and `artist`, a number for `price`; a member decoding into no field conforms. -/
def typeConforms (kv : String × JValue) : Bool :=
  match fieldOf kv.1, kv.2 with
  | none, _ => true
  | some Field.name, JValue.str _ => true
  | some Field.artist, JValue.str _ => true
  | some Field.price, JValue.num _ => true
  | _, _ => false

/-- A number given for `price` is within the range of `float64`. -/
def priceInRange (kv : String × JValue) : Bool :=
  match fieldOf kv.1, kv.2 with
  | some Field.price, JValue.num x => !x.overflowsFloat64
  | _, _ => true

/-! ## Identifier generation -/

/-- Lower-case hexadecimal digit. -/
def hexDigit (n : Nat) : Char := "0123456789abcdef".data.getD n '0'

/-- Two hexadecimal digits of one byte. -/
def hexByte (b : Nat) : List Char := [hexDigit (b / 16), hexDigit (b % 16)]

/-- The sixteen bytes of `uuid.New()`: `rnd` is the 128-bit draw from the random
source, byte 6 carries version 4 and byte 8 the RFC 4122 variant. -/
def NewRandom (rnd : Nat) : List Nat :=
  (List.range 16).map fun i =>
    let b := rnd / 256 ^ (15 - i) % 256
    if i = 6 then b % 16 + 0x40
    else if i = 8 then b % 64 + 0x80
    else b

/-- Canonical text form `xxxxxxxx-xxxx-xxxx-xxxx-xxxxxxxxxxxx`. -/
def encodeHex (u : List Nat) : String :=
  String.mk (((u.take 4).flatMap hexByte) ++ '-' :: (((u.drop 4).take 2).flatMap hexByte)
    ++ '-' :: (((u.drop 6).take 2).flatMap hexByte) ++ '-' :: (((u.drop 8).take 2).flatMap hexByte)
    ++ '-' :: ((u.drop 10).flatMap hexByte))

/-- The expression `uuid.New().String()` (line 101). -/
def newAlbumID (rnd : Nat) : String := encodeHex (NewRandom rnd)

/-! ## The table and the effects of a handler -/

/-- One row of `new_table` (lines 38-44); `image` is `none` for SQL `NULL`.  `price`
holds the value bound by the insert: no handler reads the column back, and its
rounding to the precision of `FLOAT` is not modelled. -/
structure Row where
  albumID : String
  name : String
  artist : String
  price : Float64
  image : Option (List Nat)
  deriving DecidableEq

/-- A value bound to a `?` placeholder. -/
inductive SqlArg where
  | text (s : String)
  | double (x : Float64)
  deriving DecidableEq

/-- What a handler does besides answering. -/
inductive Effect where
  | logPrintf (line : String)
  | uuidNew (id : String)
  | queryRow (query : String) (args : List SqlArg)
  | exec (query : String) (args : List SqlArg)
  deriving DecidableEq

/-- The collation of a text column, given by the comparison key it assigns to a
string: two strings are equal for the server when their keys are equal. -/
abbrev Collation := String → String

/-- A binary collation: strings are compared as they are. -/
def binaryCollation : Collation := fun s => s

/-- A collation that ignores the case of ASCII letters.  The default collations of
MySQL ignore case in this way. -/
def caseInsensitiveCollation : Collation := fun s => String.mk (s.data.map Char.toLower)

/-- The table `new_table` and the effects issued so far, oldest first.  `collation`
is the collation of the `albumID` column: the `CREATE TABLE` of lines 38-44 names
none, so it is whatever the server was configured with, and it never changes
afterwards. -/
structure World where
  collation : Collation
  table : List Row
  trace : List Effect

/-- A freshly created, empty table on a server with the given collation. -/
def World.init (collation : Collation) : World := ⟨collation, [], []⟩

/-- Append one effect to the trace. -/
def World.emit (w : World) (e : Effect) : World := { w with trace := w.trace ++ [e] }

/-- Errors of `database/sql`: the sentinel `sql.ErrNoRows`, or any other error
reported by the driver or the server. -/
inductive SqlError where
  | ErrNoRows
  | driver (detail : String)
  deriving DecidableEq

/-- The statement of line 70. -/
def selectQuery : String := "SELECT albumID FROM new_table WHERE albumID = ?"

/-- The statement of line 100. -/
def insertQuery : String :=
  "INSERT INTO new_table (albumID, name, artist, price) VALUES (?, ?, ?, ?)"

/-- Result set of the statement of line 70: the stored `albumID` of every row whose
key equals the argument under the collation of the column. -/
def selectAlbumID (collation : Collation) (table : List Row) (albumID : String) :
    List String :=
  (table.filter fun r => collation r.albumID = collation albumID).map fun r => r.albumID

/-- Lines 71-72, `db.QueryRow(query, albumID)` then `row.Scan(&album.AlbumID)`: the
first row of the result set, `sql.ErrNoRows` when it is empty.  `fault` is the error
of a backend failure, when there is one. -/
def dbQueryRowScan (w : World) (fault : Option String) (albumID : String) :
    Except SqlError String × World :=
  let w1 := w.emit (Effect.queryRow selectQuery [SqlArg.text albumID])
  match fault with
  | some detail => (Except.error (SqlError.driver detail), w1)
  | none =>
    match selectAlbumID w.collation w.table albumID with
    | [] => (Except.error SqlError.ErrNoRows, w1)
    | id :: _ => (Except.ok id, w1)

/-- Line 102, `db.Exec(query, albumID, name, artist, price)`.  The statement is
rejected, and nothing is written, when the backend fails (`fault`, standing for every
rejection other than the key check: lost connection, value too long or out of range
for its column) or when a row already has the primary key `albumID`, compared under
the collation of the column.  Otherwise one row is added, its `image` left `NULL`. -/
def dbExec (w : World) (fault : Option String) (albumID name artist : String)
    (price : Float64) : Option SqlError × World :=
  let w1 := w.emit (Effect.exec insertQuery
    [SqlArg.text albumID, SqlArg.text name, SqlArg.text artist, SqlArg.double price])
  match fault with
  | some detail => (some (SqlError.driver detail), w1)
  | none =>
    if w.table.any (fun r => w.collation r.albumID = w.collation albumID) then
      (some (SqlError.driver "Error 1062 (23000): Duplicate entry for key PRIMARY"), w1)
    else
      (none, { w1 with table := w.table ++ [⟨albumID, name, artist, price, none⟩] })

/-! ## The handlers -/

/-- The map `gin.H` of a response; every value written by this program is a string. -/
abbrev H := List (String × String)

/-- What `c.JSON(code, obj)` writes. -/
structure Response where
  status : Nat
  body : H
  deriving DecidableEq

/-- Handler of `GET /count` (lines 54-56). -/
def countHandler (w : World) : Response × World :=
  (⟨200, [("status", "ok")]⟩, w)

/-- Handler of `GET /album/:albumID` (lines 59-83). -/
def getAlbumHandler (w : World) (fault : Option String) (albumID : String) :
    Response × World :=
  let w0 := w.emit (Effect.logPrintf ("Received GET request for albumID: " ++ albumID))
  match dbQueryRowScan w0 fault albumID with
  | (Except.error err, w1) =>
    if err = SqlError.ErrNoRows then (⟨404, [("message", "Album not found")]⟩, w1)
    else (⟨500, [("message", "Error fetching album")]⟩, w1)
  | (Except.ok id, w1) => (⟨200, [("albumID", id)]⟩, w1)

/-- Handler of `POST /add` (lines 87-111). -/
def addHandler (w : World) (rnd : Nat) (fault : Option String) (body : Option JValue) :
    Response × World :=
  match ShouldBindJSON body with
  | Except.error _ => (⟨400, [("error", "Invalid JSON data")]⟩, w)
  | Except.ok newAlbum =>
    let albumID := newAlbumID rnd
    let w1 := w.emit (Effect.uuidNew albumID)
    match dbExec w1 fault albumID newAlbum.Name newAlbum.Artist newAlbum.Price with
    | (some _, w2) => (⟨500, [("error", "Failed to insert album into database")]⟩, w2)
    | (none, w2) => (⟨201, [("albumID", albumID)]⟩, w2)

/-- A request to one of the three routes. -/
inductive Request where
  | count
  | getAlbum (albumID : String)
  | add (body : Option JValue)

/-- What the environment decides while one request is handled. -/
structure Oracle where
  rnd : Nat
  fault : Option String
  deriving DecidableEq

/-- Route dispatch. -/
def serve (w : World) (o : Oracle) : Request → Response × World
  | Request.count => countHandler w
  | Request.getAlbum albumID => getAlbumHandler w o.fault albumID
  | Request.add body => addHandler w o.rnd o.fault body

/-- Requests handled one after the other; the responses come back in order. -/
def run (w : World) : List (Oracle × Request) → List Response × World
  | [] => ([], w)
  | (o, r) :: rest =>
    let (resp, w1) := serve w o r
    let (resps, w2) := run w1 rest
    (resp :: resps, w2)

/-- Identifiers returned by successful creates: the `albumID` of every 201 response. -/
def issuedIDs (resps : List Response) : List String :=
  resps.filterMap fun r => if r.status = 201 then r.body.lookup "albumID" else none

/-! ## Facts about the collaborators -/

/-- The result set is empty exactly when no row has a key equal to the argument under
the collation. -/
theorem selectAlbumID_eq_nil (collation : Collation) (table : List Row) (albumID : String) :
    selectAlbumID collation table albumID = [] ↔
      ∀ r ∈ table, collation r.albumID ≠ collation albumID := by
  unfold selectAlbumID
  simp [List.filter_eq_nil_iff]

/-- When no row of the table matches the key, the result set after appending a row
stored under that very key is that key alone. -/
theorem selectAlbumID_append_fresh (collation : Collation) (table : List Row)
    (albumID name artist : String) (price : Float64) (image : Option (List Nat))
    (h : ∀ r ∈ table, collation r.albumID ≠ collation albumID) :
    selectAlbumID collation (table ++ [⟨albumID, name, artist, price, image⟩]) albumID =
      [albumID] := by
  have hnil : table.filter (fun r => collation r.albumID = collation albumID) = [] := by
    simpa [List.filter_eq_nil_iff] using h
  unfold selectAlbumID
  rw [List.filter_append, hnil]
  simp

/-- The insert always logs exactly one `exec` with the four bound values. -/
theorem dbExec_trace (w : World) (fault : Option String) (albumID name artist : String)
    (price : Float64) :
    (dbExec w fault albumID name artist price).2.trace = w.trace ++ [Effect.exec insertQuery
      [SqlArg.text albumID, SqlArg.text name, SqlArg.text artist, SqlArg.double price]] := by
  unfold dbExec
  cases fault with
  | some detail => rfl
  | none =>
    by_cases hk : (w.table.any fun r => w.collation r.albumID = w.collation albumID) = true
    · simp [hk, World.emit]
    · simp [hk, World.emit]

/-- The insert leaves the collation of the column alone. -/
theorem dbExec_collation (w : World) (fault : Option String) (albumID name artist : String)
    (price : Float64) :
    (dbExec w fault albumID name artist price).2.collation = w.collation := by
  unfold dbExec
  cases fault with
  | some detail => rfl
  | none =>
    by_cases hk : (w.table.any fun r => w.collation r.albumID = w.collation albumID) = true
    · simp [hk, World.emit]
    · simp [hk, World.emit]

/-- A rejected insert writes nothing. -/
theorem dbExec_rejected (w : World) (fault : Option String) (albumID name artist : String)
    (price : Float64) (err : SqlError)
    (h : (dbExec w fault albumID name artist price).1 = some err) :
    (dbExec w fault albumID name artist price).2.table = w.table := by
  unfold dbExec at h ⊢
  cases fault with
  | some detail => rfl
  | none =>
    by_cases hk : (w.table.any fun r => w.collation r.albumID = w.collation albumID) = true
    · simp [hk, World.emit]
    · simp [hk] at h

/-- An accepted insert found no row with the key, compared under the collation, and
appended exactly the new row. -/
theorem dbExec_accepted (w : World) (fault : Option String) (albumID name artist : String)
    (price : Float64) (h : (dbExec w fault albumID name artist price).1 = none) :
    fault = none ∧ (∀ r ∈ w.table, w.collation r.albumID ≠ w.collation albumID) ∧
      (dbExec w fault albumID name artist price).2.table =
        w.table ++ [⟨albumID, name, artist, price, none⟩] := by
  unfold dbExec at h ⊢
  cases fault with
  | some detail => simp at h
  | none =>
    by_cases hk : (w.table.any fun r => w.collation r.albumID = w.collation albumID) = true
    · simp [hk] at h
    · refine ⟨rfl, ?_, ?_⟩
      · intro r hr heq
        apply hk
        simp only [List.any_eq_true, decide_eq_true_eq]
        exact ⟨r, hr, heq⟩
      · simp [hk, World.emit]

/-- A body that fails to bind is answered 400 and nothing else happens. -/
theorem addHandler_unbound (w : World) (rnd : Nat) (fault : Option String)
    (body : Option JValue) (e : BindError) (h : ShouldBindJSON body = Except.error e) :
    addHandler w rnd fault body = (⟨400, [("error", "Invalid JSON data")]⟩, w) := by
  unfold addHandler
  rw [h]

/-- A generated identifier has 36 characters. -/
theorem newAlbumID_length (rnd : Nat) : (newAlbumID rnd).data.length = 36 := by
  simp [newAlbumID, encodeHex, NewRandom, List.range, List.range.loop, hexByte]

/-- The ninth character of a generated identifier is the first dash. -/
theorem newAlbumID_dash (rnd : Nat) : (newAlbumID rnd).data.get? 8 = some '-' := by
  simp [newAlbumID, encodeHex, NewRandom, List.range, List.range.loop, hexByte]

/-- A generated identifier occurs neither in the key nor in the text of the insert
failure body. -/
theorem newAlbumID_not_in_failure_body (rnd : Nat) :
    ¬ (newAlbumID rnd).data <:+: "error".data ∧
    ¬ (newAlbumID rnd).data <:+: "Failed to insert album into database".data := by
  constructor
  · intro h
    have hl := h.length_le
    rw [newAlbumID_length] at hl
    simp at hl
  · intro h
    have he := h.eq_of_length (by rw [newAlbumID_length]; rfl)
    have hd := newAlbumID_dash rnd
    rw [he] at hd
    simp at hd

/-- What the create handler does once the body is bound: one identifier, one insert,
and the answer follows the outcome of the insert. -/
theorem addHandler_bound (w : World) (rnd : Nat) (fault : Option String)
    (body : Option JValue) (album : NewAlbum) (hb : ShouldBindJSON body = Except.ok album) :
    addHandler w rnd fault body =
      match dbExec (w.emit (Effect.uuidNew (newAlbumID rnd))) fault (newAlbumID rnd)
          album.Name album.Artist album.Price with
      | (some _, w2) => (⟨500, [("error", "Failed to insert album into database")]⟩, w2)
      | (none, w2) => (⟨201, [("albumID", newAlbumID rnd)]⟩, w2) := by
  unfold addHandler
  rw [hb]

/-- The create handler leaves the collation of the column alone. -/
theorem addHandler_collation (w : World) (rnd : Nat) (fault : Option String)
    (body : Option JValue) : (addHandler w rnd fault body).2.collation = w.collation := by
  cases hb : ShouldBindJSON body with
  | error e => rw [addHandler_unbound w rnd fault body e hb]
  | ok album =>
    have hc := dbExec_collation (w.emit (Effect.uuidNew (newAlbumID rnd))) fault
      (newAlbumID rnd) album.Name album.Artist album.Price
    rw [addHandler_bound w rnd fault body album hb]
    generalize dbExec (w.emit (Effect.uuidNew (newAlbumID rnd))) fault (newAlbumID rnd)
      album.Name album.Artist album.Price = res at hc ⊢
    obtain ⟨out, w2⟩ := res
    cases out with
    | some err => exact hc
    | none => exact hc

/-- A create that answers 201 bound its body, inserted under a key no row had under the
collation, answers with the generated identifier and appended exactly one row. -/
theorem addHandler_created (w : World) (rnd : Nat) (fault : Option String)
    (body : Option JValue) (h : (addHandler w rnd fault body).1.status = 201) :
    ∃ album, ShouldBindJSON body = Except.ok album ∧
      (addHandler w rnd fault body).1 = ⟨201, [("albumID", newAlbumID rnd)]⟩ ∧
      (∀ r ∈ w.table, w.collation r.albumID ≠ w.collation (newAlbumID rnd)) ∧
      (addHandler w rnd fault body).2.table =
        w.table ++ [⟨newAlbumID rnd, album.Name, album.Artist, album.Price, none⟩] := by
  cases hb : ShouldBindJSON body with
  | error e =>
    have h400 := (addHandler_unbound w rnd fault body e hb)
    rw [h400] at h
    simp at h
  | ok album =>
    refine ⟨album, rfl, ?_⟩
    have hacc := dbExec_accepted (w.emit (Effect.uuidNew (newAlbumID rnd))) fault
      (newAlbumID rnd) album.Name album.Artist album.Price
    rw [addHandler_bound w rnd fault body album hb] at h ⊢
    generalize dbExec (w.emit (Effect.uuidNew (newAlbumID rnd))) fault (newAlbumID rnd)
      album.Name album.Artist album.Price = res at h hacc ⊢
    obtain ⟨out, w2⟩ := res
    cases out with
    | some err => simp at h
    | none =>
      obtain ⟨_, hfresh, htable⟩ := hacc rfl
      exact ⟨rfl, hfresh, htable⟩

/-- A create that does not answer 201 leaves the table as it was. -/
theorem addHandler_not_created (w : World) (rnd : Nat) (fault : Option String)
    (body : Option JValue) (h : (addHandler w rnd fault body).1.status ≠ 201) :
    (addHandler w rnd fault body).2.table = w.table := by
  cases hb : ShouldBindJSON body with
  | error e => rw [addHandler_unbound w rnd fault body e hb]
  | ok album =>
    have hrej := dbExec_rejected (w.emit (Effect.uuidNew (newAlbumID rnd))) fault
      (newAlbumID rnd) album.Name album.Artist album.Price
    rw [addHandler_bound w rnd fault body album hb] at h ⊢
    generalize dbExec (w.emit (Effect.uuidNew (newAlbumID rnd))) fault (newAlbumID rnd)
      album.Name album.Artist album.Price = res at h hrej ⊢
    obtain ⟨out, w2⟩ := res
    cases out with
    | some err => exact hrej err rfl
    | none => simp at h

/-- Without a backend failure, the fetch answers 200 with the stored identifier of the
first row of the result set as the only field. -/
theorem getAlbumHandler_selected (w : World) (albumID id : String) (rest : List String)
    (h : selectAlbumID w.collation w.table albumID = id :: rest) :
    (getAlbumHandler w none albumID).1 = ⟨200, [("albumID", id)]⟩ := by
  unfold getAlbumHandler dbQueryRowScan
  simp only [World.emit]
  rw [h]

/-- Without a backend failure, the fetch of an identifier that no row matches under the
collation answers 404. -/
theorem getAlbumHandler_absent (w : World) (albumID : String)
    (h : ∀ r ∈ w.table, w.collation r.albumID ≠ w.collation albumID) :
    (getAlbumHandler w none albumID).1 = ⟨404, [("message", "Album not found")]⟩ := by
  unfold getAlbumHandler dbQueryRowScan
  simp only [World.emit]
  rw [(selectAlbumID_eq_nil w.collation w.table albumID).2 h]
  simp

/-- The fetch handler never writes to the table. -/
theorem getAlbumHandler_table (w : World) (fault : Option String) (albumID : String) :
    (getAlbumHandler w fault albumID).2.table = w.table := by
  unfold getAlbumHandler dbQueryRowScan
  simp only [World.emit]
  cases fault with
  | some detail => simp
  | none =>
    cases hsel : selectAlbumID w.collation w.table albumID with
    | nil => simp
    | cons id rest => simp

/-- The fetch handler leaves the collation of the column alone. -/
theorem getAlbumHandler_collation (w : World) (fault : Option String) (albumID : String) :
    (getAlbumHandler w fault albumID).2.collation = w.collation := by
  unfold getAlbumHandler dbQueryRowScan
  simp only [World.emit]
  cases fault with
  | some detail => simp
  | none =>
    cases hsel : selectAlbumID w.collation w.table albumID with
    | nil => simp
    | cons id rest => simp

/-- No request changes the collation of the column. -/
theorem serve_collation (w : World) (o : Oracle) (r : Request) :
    (serve w o r).2.collation = w.collation := by
  cases r with
  | count => rfl
  | getAlbum albumID => exact getAlbumHandler_collation w o.fault albumID
  | add body => exact addHandler_collation w o.rnd o.fault body

/-- No sequence of requests changes the collation of the column. -/
theorem run_collation (steps : List (Oracle × Request)) :
    ∀ (w : World), (run w steps).2.collation = w.collation := by
  induction steps with
  | nil => intro w; rfl
  | cons step rest ih =>
    intro w
    obtain ⟨o, r⟩ := step
    simp only [run]
    rw [ih, serve_collation]

/-- One request either leaves the table as it was, or it is answered 201 with the
identifier of the one row appended. -/
theorem serve_table (w : World) (o : Oracle) (r : Request) :
    (serve w o r).2.table = w.table ∨
      ∃ row, (serve w o r).1 = ⟨201, [("albumID", row.albumID)]⟩ ∧
        (serve w o r).2.table = w.table ++ [row] := by
  cases r with
  | count => exact Or.inl rfl
  | getAlbum albumID => exact Or.inl (getAlbumHandler_table w o.fault albumID)
  | add body =>
    by_cases hs : (addHandler w o.rnd o.fault body).1.status = 201
    · obtain ⟨album, _, hresp, _, htable⟩ := addHandler_created w o.rnd o.fault body hs
      exact Or.inr ⟨⟨newAlbumID o.rnd, album.Name, album.Artist, album.Price, none⟩,
        hresp, htable⟩
    · exact Or.inl (addHandler_not_created w o.rnd o.fault body hs)

/-- After any sequence of requests, every row was there at the start or carries an
identifier returned by one of the successful creates of the sequence. -/
theorem run_table_ids (steps : List (Oracle × Request)) :
    ∀ (w : World), ∀ row ∈ (run w steps).2.table,
      row ∈ w.table ∨ row.albumID ∈ issuedIDs (run w steps).1 := by
  induction steps with
  | nil => intro w row hrow; exact Or.inl hrow
  | cons step rest ih =>
    intro w row hrow
    obtain ⟨o, r⟩ := step
    simp only [run] at hrow ⊢
    rcases ih (serve w o r).2 row hrow with hmem | hiss
    · rcases serve_table w o r with hsame | ⟨added, hresp, htable⟩
      · rw [hsame] at hmem
        exact Or.inl hmem
      · rw [htable, List.mem_append, List.mem_singleton] at hmem
        rcases hmem with hold | hnew
        · exact Or.inl hold
        · right
          subst hnew
          simp [issuedIDs, hresp, List.lookup]
    · right
      simp only [issuedIDs, List.filterMap_cons] at hiss ⊢
      split
      · exact hiss
      · exact List.mem_cons_of_mem _ hiss

/-- From the empty table, an identifier that matches no issued identifier under the
collation matches no row. -/
theorem run_unmatched_absent (collation : Collation) (steps : List (Oracle × Request))
    (id : String)
    (h : ∀ issued ∈ issuedIDs (run (World.init collation) steps).1,
      collation issued ≠ collation id) :
    ∀ row ∈ (run (World.init collation) steps).2.table,
      collation row.albumID ≠ collation id := by
  intro row hrow
  rcases run_table_ids steps (World.init collation) row hrow with hmem | hiss
  · simp [World.init] at hmem
  · exact h row.albumID hiss

/-- The value of a field after one more member is appended to the object. -/
theorem memberFor_append_singleton (members : List (String × JValue))
    (kv : String × JValue) (f : Field) :
    memberFor (members ++ [kv]) f =
      if fieldOf kv.1 = some f then some kv.2 else memberFor members f := by
  unfold memberFor
  by_cases hf : fieldOf kv.1 = some f
  · simp [List.reverse_append, List.find?_cons, hf]
  · simp [List.reverse_append, List.find?_cons, hf]

/-- Decoding an object whose members have the types of their fields, with every price
in range, saves no error and leaves in each field the value of the last member
decoding into it, or the zero value when no member does. -/
theorem decodeObject_conforming (members : List (String × JValue)) :
    members.all typeConforms = true → members.all priceInRange = true →
    (decodeObject members).savedError = none ∧
    (decodeObject members).album.Name =
      (match memberFor members Field.name with
        | some (JValue.str s) => s
        | _ => "") ∧
    (decodeObject members).album.Artist =
      (match memberFor members Field.artist with
        | some (JValue.str s) => s
        | _ => "") ∧
    (decodeObject members).album.Price =
      (match memberFor members Field.price with
        | some (JValue.num x) => ⟨x⟩
        | _ => Float64.zero) := by
  induction members using List.reverseRecOn with
  | nil => intro _ _; exact ⟨rfl, rfl, rfl, rfl⟩
  | append_singleton l kv ih =>
    intro ht hr
    rw [List.all_append, Bool.and_eq_true] at ht hr
    obtain ⟨he, hn, ha, hp⟩ := ih ht.1 hr.1
    have hkt : typeConforms kv = true := by simpa using ht.2
    have hkr : priceInRange kv = true := by simpa using hr.2
    have hstep : decodeObject (l ++ [kv]) = decodeMember (decodeObject l) kv := by
      simp [decodeObject, List.foldl_append]
    rw [hstep]
    simp only [memberFor_append_singleton]
    obtain ⟨k, v⟩ := kv
    unfold typeConforms at hkt
    unfold priceInRange at hkr
    unfold decodeMember
    cases hf : fieldOf k with
    | none => simp [hf, he, hn, ha, hp]
    | some f =>
      cases f with
      | name =>
        cases v <;> simp_all
      | artist =>
        cases v <;> simp_all
      | price =>
        cases v <;> simp_all

/-- Once the body is bound the answer is never 400, one identifier and one insert
carrying the bound values are added to the trace, and the answer is 201 with the
generated identifier when the insert succeeds. -/
theorem addHandler_bound_facts (w : World) (rnd : Nat) (fault : Option String)
    (body : Option JValue) (album : NewAlbum) (hb : ShouldBindJSON body = Except.ok album) :
    (addHandler w rnd fault body).1.status ≠ 400 ∧
    (addHandler w rnd fault body).2.trace = w.trace ++
      [Effect.uuidNew (newAlbumID rnd),
       Effect.exec insertQuery [SqlArg.text (newAlbumID rnd), SqlArg.text album.Name,
         SqlArg.text album.Artist, SqlArg.double album.Price]] ∧
    ((dbExec (w.emit (Effect.uuidNew (newAlbumID rnd))) fault (newAlbumID rnd)
        album.Name album.Artist album.Price).1 = none →
      (addHandler w rnd fault body).1 = ⟨201, [("albumID", newAlbumID rnd)]⟩) := by
  have htr := dbExec_trace (w.emit (Effect.uuidNew (newAlbumID rnd))) fault
    (newAlbumID rnd) album.Name album.Artist album.Price
  rw [addHandler_bound w rnd fault body album hb]
  generalize dbExec (w.emit (Effect.uuidNew (newAlbumID rnd))) fault (newAlbumID rnd)
    album.Name album.Artist album.Price = res at htr
  obtain ⟨out, w2⟩ := res
  simp only at htr
  cases out with
  | some err =>
    refine ⟨by simp, ?_, by simp⟩
    rw [htr]
    simp [World.emit]
  | none =>
    refine ⟨by simp, ?_, fun _ => rfl⟩
    rw [htr]
    simp [World.emit]

/-! ## The health check and the failure paths -/

/-- C10: the health check `GET /count` answers 200 with the body `status: ok` whatever
the table holds and whatever the backend would do (the oracle is arbitrary, also one
under which every storage call fails), and it leaves the world as it was: no row is
touched and no storage call is added to the trace. -/
theorem count_always_ok (w : World) (o : Oracle) :
    serve w o Request.count = (⟨200, [("status", "ok")]⟩, w) := rfl

/-- C2: when the body of `POST /add` fails to bind, the handler answers 400 with the
body `error: Invalid JSON data` and the world after the request is the world before
it: the table is unchanged and the trace has no new entry, so no insert was issued
and no identifier was generated. -/
theorem add_bind_failure_rejected (w : World) (rnd : Nat) (fault : Option String)
    (body : Option JValue) (e : BindError) (h : ShouldBindJSON body = Except.error e) :
    (addHandler w rnd fault body).1 = ⟨400, [("error", "Invalid JSON data")]⟩ ∧
      (addHandler w rnd fault body).2 = w := by
  rw [addHandler_unbound w rnd fault body e h]
  exact ⟨rfl, rfl⟩

/-- Witness for C2: a body whose `price` is a JSON string. -/
theorem add_bind_failure_rejected_witness :
    ShouldBindJSON (some (JValue.obj [("name", JValue.str "Abbey Road"),
        ("artist", JValue.str "The Beatles"), ("price", JValue.str "9.99")])) =
      Except.error BindError.unmarshalType ∧
    (addHandler (World.init caseInsensitiveCollation) 7 none
      (some (JValue.obj [("name", JValue.str "Abbey Road"),
        ("artist", JValue.str "The Beatles"), ("price", JValue.str "9.99")]))).1 =
      ⟨400, [("error", "Invalid JSON data")]⟩ ∧
    (addHandler (World.init caseInsensitiveCollation) 7 none
      (some (JValue.obj [("name", JValue.str "Abbey Road"),
        ("artist", JValue.str "The Beatles"), ("price", JValue.str "9.99")]))).2 =
      (World.init caseInsensitiveCollation) :=
  ⟨by rfl, add_bind_failure_rejected (World.init caseInsensitiveCollation)
    7 none _ BindError.unmarshalType (by rfl)⟩

/-- A body that is not JSON at all, and a body that is a bare JSON string, fail to
bind as well. -/
theorem not_json_fails_to_bind :
    ShouldBindJSON none = Except.error BindError.malformed ∧
    ShouldBindJSON (some (JValue.str "not json")) = Except.error BindError.unmarshalType :=
  ⟨rfl, rfl⟩

/-- C4: when the lookup of the fetch handler fails with error `err`, the response is
404 `message: Album not found` if and only if `err` is `sql.ErrNoRows`, it is 500
`message: Error fetching album` for every other error, it is never 200, and the
handler adds one log line and exactly one lookup to the trace (no second lookup). -/
theorem getAlbum_failure_mapping (w : World) (fault : Option String) (albumID : String)
    (err : SqlError)
    (h : (dbQueryRowScan (w.emit (Effect.logPrintf
        ("Received GET request for albumID: " ++ albumID))) fault albumID).1 =
          Except.error err) :
    ((getAlbumHandler w fault albumID).1 = ⟨404, [("message", "Album not found")]⟩ ↔
        err = SqlError.ErrNoRows) ∧
    (err ≠ SqlError.ErrNoRows →
        (getAlbumHandler w fault albumID).1 = ⟨500, [("message", "Error fetching album")]⟩) ∧
    (getAlbumHandler w fault albumID).1.status ≠ 200 ∧
    (getAlbumHandler w fault albumID).2.trace = w.trace ++
      [Effect.logPrintf ("Received GET request for albumID: " ++ albumID),
       Effect.queryRow selectQuery [SqlArg.text albumID]] ∧
    (getAlbumHandler w fault albumID).2.table = w.table := by
  unfold getAlbumHandler
  unfold dbQueryRowScan at h ⊢
  cases fault with
  | some detail =>
    simp only [Except.error.injEq] at h
    subst h
    simp [World.emit]
  | none =>
    simp only [World.emit] at h ⊢
    cases hsel : selectAlbumID w.collation w.table albumID with
    | nil =>
      rw [hsel] at h
      simp only [Except.error.injEq] at h
      subst h
      simp
    | cons id rest =>
      rw [hsel] at h
      simp at h

/-- Witness for C4: the connection drops while a stored album is looked up. -/
theorem getAlbum_failure_mapping_witness :
    (dbQueryRowScan ((⟨caseInsensitiveCollation,
        [⟨"a", "n", "r", Float64.zero, none⟩], []⟩ : World).emit
        (Effect.logPrintf ("Received GET request for albumID: " ++ "a")))
        (some "invalid connection") "a").1 =
      Except.error (SqlError.driver "invalid connection") ∧
    (getAlbumHandler ⟨caseInsensitiveCollation, [⟨"a", "n", "r", Float64.zero, none⟩], []⟩
        (some "invalid connection") "a").1 = ⟨500, [("message", "Error fetching album")]⟩ :=
  ⟨by rfl, (getAlbum_failure_mapping
    ⟨caseInsensitiveCollation, [⟨"a", "n", "r", Float64.zero, none⟩], []⟩
    (some "invalid connection") "a" (SqlError.driver "invalid connection") (by rfl)).2.1
      (by decide)⟩

/-! ## The create path -/

/-- C5: when the body of `POST /add` binds to `album` and the insert succeeds, the
handler generates exactly one identifier `id`, issues exactly one insert whose four
bound values are `id` and the parsed name, artist and price, the row written has no
image, nothing else is added to trace or table, and the answer is 201 with the body
`albumID: id` for that same `id`. -/
theorem add_success (w : World) (rnd : Nat) (fault : Option String) (body : Option JValue)
    (album : NewAlbum) (hb : ShouldBindJSON body = Except.ok album)
    (hi : (dbExec (w.emit (Effect.uuidNew (newAlbumID rnd))) fault (newAlbumID rnd)
      album.Name album.Artist album.Price).1 = none) :
    (addHandler w rnd fault body).1 = ⟨201, [("albumID", newAlbumID rnd)]⟩ ∧
    (addHandler w rnd fault body).2.trace = w.trace ++
      [Effect.uuidNew (newAlbumID rnd),
       Effect.exec insertQuery [SqlArg.text (newAlbumID rnd), SqlArg.text album.Name,
         SqlArg.text album.Artist, SqlArg.double album.Price]] ∧
    (addHandler w rnd fault body).2.table =
      w.table ++ [⟨newAlbumID rnd, album.Name, album.Artist, album.Price, none⟩] := by
  have htr := dbExec_trace (w.emit (Effect.uuidNew (newAlbumID rnd))) fault
    (newAlbumID rnd) album.Name album.Artist album.Price
  have hacc := dbExec_accepted (w.emit (Effect.uuidNew (newAlbumID rnd))) fault
    (newAlbumID rnd) album.Name album.Artist album.Price hi
  rw [addHandler_bound w rnd fault body album hb]
  generalize dbExec (w.emit (Effect.uuidNew (newAlbumID rnd))) fault (newAlbumID rnd)
    album.Name album.Artist album.Price = res at hi htr hacc
  obtain ⟨out, w2⟩ := res
  simp only at hi
  subst hi
  simp only at htr
  refine ⟨rfl, ?_, hacc.2.2⟩
  rw [htr]
  simp [World.emit]

/-- Witness for C5: the example request of the specification on an empty table. -/
theorem add_success_witness :
    (addHandler (World.init caseInsensitiveCollation) 7 none
      (some (JValue.obj [("name", JValue.str "Abbey Road"),
      ("artist", JValue.str "The Beatles"), ("price", JValue.num ⟨false, 999, -2⟩)]))).1 =
        ⟨201, [("albumID", "00000000-0000-4000-8000-000000000007")]⟩ :=
  (add_success (World.init caseInsensitiveCollation) 7 none
    (some (JValue.obj [("name", JValue.str "Abbey Road"),
      ("artist", JValue.str "The Beatles"), ("price", JValue.num ⟨false, 999, -2⟩)]))
    ⟨"Abbey Road", "The Beatles", ⟨⟨false, 999, -2⟩⟩⟩ (by rfl) (by rfl)).1

/-- C6: when the body of `POST /add` binds but the insert is rejected, for a backend
failure or for a duplicate key alike, the answer is 500 with the fixed body
`error: Failed to insert album into database`, never 201; the body is that constant
whatever the backend reported, the generated identifier occurs nowhere in it, the
trace gains the one identifier and exactly one insert (no retry), and no row is
written. -/
theorem add_insert_rejected (w : World) (rnd : Nat) (fault : Option String)
    (body : Option JValue) (album : NewAlbum) (err : SqlError)
    (hb : ShouldBindJSON body = Except.ok album)
    (hi : (dbExec (w.emit (Effect.uuidNew (newAlbumID rnd))) fault (newAlbumID rnd)
      album.Name album.Artist album.Price).1 = some err) :
    (addHandler w rnd fault body).1 =
      ⟨500, [("error", "Failed to insert album into database")]⟩ ∧
    (addHandler w rnd fault body).1.status ≠ 201 ∧
    (∀ kv ∈ (addHandler w rnd fault body).1.body,
      ¬ (newAlbumID rnd).data <:+: kv.1.data ∧ ¬ (newAlbumID rnd).data <:+: kv.2.data) ∧
    (addHandler w rnd fault body).2.trace = w.trace ++
      [Effect.uuidNew (newAlbumID rnd),
       Effect.exec insertQuery [SqlArg.text (newAlbumID rnd), SqlArg.text album.Name,
         SqlArg.text album.Artist, SqlArg.double album.Price]] ∧
    (addHandler w rnd fault body).2.table = w.table := by
  have htr := dbExec_trace (w.emit (Effect.uuidNew (newAlbumID rnd))) fault
    (newAlbumID rnd) album.Name album.Artist album.Price
  have hrej := dbExec_rejected (w.emit (Effect.uuidNew (newAlbumID rnd))) fault
    (newAlbumID rnd) album.Name album.Artist album.Price err hi
  rw [addHandler_bound w rnd fault body album hb]
  generalize dbExec (w.emit (Effect.uuidNew (newAlbumID rnd))) fault (newAlbumID rnd)
    album.Name album.Artist album.Price = res at hi htr hrej
  obtain ⟨out, w2⟩ := res
  simp only at hi
  subst hi
  simp only at htr
  refine ⟨rfl, by simp, ?_, ?_, hrej⟩
  · intro kv hkv
    simp only [List.mem_singleton] at hkv
    subst hkv
    exact newAlbumID_not_in_failure_body rnd
  · rw [htr]
    simp [World.emit]

/-- Witness for C6: the generated identifier collides with a stored row. -/
theorem add_insert_rejected_witness :
    (addHandler ⟨caseInsensitiveCollation,
      [⟨"00000000-0000-4000-8000-000000000007", "n", "r", Float64.zero, none⟩], []⟩
      7 none (some (JValue.obj [("name", JValue.str "Abbey Road"),
        ("artist", JValue.str "The Beatles"), ("price", JValue.num ⟨false, 999, -2⟩)]))).1 =
      ⟨500, [("error", "Failed to insert album into database")]⟩ :=
  (add_insert_rejected
    ⟨caseInsensitiveCollation,
      [⟨"00000000-0000-4000-8000-000000000007", "n", "r", Float64.zero, none⟩], []⟩ 7 none
    (some (JValue.obj [("name", JValue.str "Abbey Road"),
      ("artist", JValue.str "The Beatles"), ("price", JValue.num ⟨false, 999, -2⟩)]))
    ⟨"Abbey Road", "The Beatles", ⟨⟨false, 999, -2⟩⟩⟩
    (SqlError.driver "Error 1062 (23000): Duplicate entry for key PRIMARY")
    (by rfl) (by rfl)).1

/-- C1: when `POST /add` answers 201 with identifier `id`, a following
`GET /album/id` on the resulting world, with no backend failure, answers 200 with a
body whose only field is `albumID: id`: no name, artist, price or image. -/
theorem create_then_fetch (w w1 : World) (rnd : Nat) (fault : Option String)
    (body : Option JValue) (id : String)
    (h : addHandler w rnd fault body = (⟨201, [("albumID", id)]⟩, w1)) :
    (getAlbumHandler w1 none id).1 = ⟨200, [("albumID", id)]⟩ := by
  have hst : (addHandler w rnd fault body).1.status = 201 := by rw [h]
  obtain ⟨album, _, hresp, hfresh, htable⟩ := addHandler_created w rnd fault body hst
  have hcol := addHandler_collation w rnd fault body
  rw [h] at hresp htable hcol
  simp only [Response.mk.injEq, List.cons.injEq, Prod.mk.injEq, and_true, true_and] at hresp
  subst hresp
  simp only at htable hcol
  apply getAlbumHandler_selected w1 (newAlbumID rnd) (newAlbumID rnd) []
  rw [htable, hcol]
  exact selectAlbumID_append_fresh w.collation w.table _ _ _ _ none hfresh

/-- Witness for C1: the example scenario of the specification. -/
theorem create_then_fetch_witness :
    (getAlbumHandler (addHandler (World.init caseInsensitiveCollation) 7 none (some (JValue.obj
      [("name", JValue.str "Abbey Road"), ("artist", JValue.str "The Beatles"),
       ("price", JValue.num ⟨false, 999, -2⟩)]))).2 none
      "00000000-0000-4000-8000-000000000007").1 =
        ⟨200, [("albumID", "00000000-0000-4000-8000-000000000007")]⟩ :=
  create_then_fetch (World.init caseInsensitiveCollation) _ 7 none (some (JValue.obj
      [("name", JValue.str "Abbey Road"), ("artist", JValue.str "The Beatles"),
       ("price", JValue.num ⟨false, 999, -2⟩)])) "00000000-0000-4000-8000-000000000007"
    (by rfl)

/-- C7: two `POST /add` requests handled one after the other from any world that both
answer 201 return different identifiers, whatever their bodies, so in particular when
both carry the same name, artist and price. -/
theorem identical_creates_distinct_ids (w : World) (rnd1 rnd2 : Nat)
    (fault1 fault2 : Option String) (body1 body2 : Option JValue) (id1 id2 : String)
    (h1 : (addHandler w rnd1 fault1 body1).1 = ⟨201, [("albumID", id1)]⟩)
    (h2 : (addHandler (addHandler w rnd1 fault1 body1).2 rnd2 fault2 body2).1 =
      ⟨201, [("albumID", id2)]⟩) :
    id1 ≠ id2 := by
  have hs1 : (addHandler w rnd1 fault1 body1).1.status = 201 := by rw [h1]
  have hs2 : (addHandler (addHandler w rnd1 fault1 body1).2 rnd2 fault2 body2).1.status = 201 := by
    rw [h2]
  obtain ⟨a1, _, hr1, _, ht1⟩ := addHandler_created w rnd1 fault1 body1 hs1
  obtain ⟨a2, _, hr2, hfresh, _⟩ :=
    addHandler_created (addHandler w rnd1 fault1 body1).2 rnd2 fault2 body2 hs2
  rw [h1] at hr1
  rw [h2] at hr2
  simp only [Response.mk.injEq, List.cons.injEq, Prod.mk.injEq, and_true, true_and] at hr1 hr2
  subst hr1 hr2
  intro heq
  exact hfresh ⟨newAlbumID rnd1, a1.Name, a1.Artist, a1.Price, none⟩ (by rw [ht1]; simp)
    (by rw [heq])

/-- Witness for C7: the example body created twice with two different random draws. -/
theorem identical_creates_distinct_ids_witness :
    (addHandler (World.init caseInsensitiveCollation) 7 none
      (some (JValue.obj [("name", JValue.str "Abbey Road"),
      ("artist", JValue.str "The Beatles"), ("price", JValue.num ⟨false, 999, -2⟩)]))).1 =
        ⟨201, [("albumID", "00000000-0000-4000-8000-000000000007")]⟩ ∧
    (addHandler (addHandler (World.init caseInsensitiveCollation) 7 none (some (JValue.obj
      [("name", JValue.str "Abbey Road"), ("artist", JValue.str "The Beatles"),
       ("price", JValue.num ⟨false, 999, -2⟩)]))).2 8 none (some (JValue.obj
      [("name", JValue.str "Abbey Road"), ("artist", JValue.str "The Beatles"),
       ("price", JValue.num ⟨false, 999, -2⟩)]))).1 =
        ⟨201, [("albumID", "00000000-0000-4000-8000-000000000008")]⟩ ∧
    "00000000-0000-4000-8000-000000000007" ≠ "00000000-0000-4000-8000-000000000008" :=
  ⟨by rfl, by rfl, identical_creates_distinct_ids (World.init caseInsensitiveCollation)
    7 8 none none
    (some (JValue.obj [("name", JValue.str "Abbey Road"),
      ("artist", JValue.str "The Beatles"), ("price", JValue.num ⟨false, 999, -2⟩)]))
    (some (JValue.obj [("name", JValue.str "Abbey Road"),
      ("artist", JValue.str "The Beatles"), ("price", JValue.num ⟨false, 999, -2⟩)]))
    "00000000-0000-4000-8000-000000000007" "00000000-0000-4000-8000-000000000008"
    (by rfl) (by rfl)⟩

/-! ## The table over time -/

/-- C8: records are append-only.  Whatever request is handled and whatever its
outcome, the table before the request is an initial segment of the table after it, so
every row is still there with the same albumID, name, artist and price; the health
check and the fetch leave the table exactly as it was; a create leaves it as it was
or appends exactly one row. -/
theorem records_append_only (w : World) (o : Oracle) (r : Request) :
    w.table <+: (serve w o r).2.table ∧
    (∀ row ∈ w.table, row ∈ (serve w o r).2.table) ∧
    (serve w o Request.count).2.table = w.table ∧
    (∀ albumID, (serve w o (Request.getAlbum albumID)).2.table = w.table) ∧
    (∀ body, (serve w o (Request.add body)).2.table = w.table ∨
      ∃ row, (serve w o (Request.add body)).2.table = w.table ++ [row]) := by
  have hpre : w.table <+: (serve w o r).2.table := by
    rcases serve_table w o r with hsame | ⟨row, _, htable⟩
    · rw [hsame]
    · rw [htable]
      exact List.prefix_append _ _
  refine ⟨hpre, fun row hrow => hpre.subset hrow, rfl, ?_, ?_⟩
  · intro albumID
    exact getAlbumHandler_table w o.fault albumID
  · intro body
    rcases serve_table w o (Request.add body) with hsame | ⟨row, _, htable⟩
    · exact Or.inl hsame
    · exact Or.inr ⟨row, htable⟩

/-- C3, as stated, fails on a server whose collation ignores case, as the default
collations of MySQL do.  After the example create has returned the identifier ending
in `a`, the spelling ending in `A` was returned by no create and is the `albumID` of no
row, yet the fault-free fetch of it answers 200, with the stored spelling. -/
theorem case_variant_of_issued_id_found :
    issuedIDs (run (World.init caseInsensitiveCollation) [(⟨10, none⟩,
      Request.add (some (JValue.obj [("name", JValue.str "Abbey Road"),
        ("artist", JValue.str "The Beatles"),
        ("price", JValue.num ⟨false, 999, -2⟩)])))]).1 =
      ["00000000-0000-4000-8000-00000000000a"] ∧
    "00000000-0000-4000-8000-00000000000A" ∉
      issuedIDs (run (World.init caseInsensitiveCollation) [(⟨10, none⟩,
        Request.add (some (JValue.obj [("name", JValue.str "Abbey Road"),
          ("artist", JValue.str "The Beatles"),
          ("price", JValue.num ⟨false, 999, -2⟩)])))]).1 ∧
    (∀ row ∈ (run (World.init caseInsensitiveCollation) [(⟨10, none⟩,
        Request.add (some (JValue.obj [("name", JValue.str "Abbey Road"),
          ("artist", JValue.str "The Beatles"),
          ("price", JValue.num ⟨false, 999, -2⟩)])))]).2.table,
      row.albumID ≠ "00000000-0000-4000-8000-00000000000A") ∧
    (getAlbumHandler (run (World.init caseInsensitiveCollation) [(⟨10, none⟩,
        Request.add (some (JValue.obj [("name", JValue.str "Abbey Road"),
          ("artist", JValue.str "The Beatles"),
          ("price", JValue.num ⟨false, 999, -2⟩)])))]).2 none
      "00000000-0000-4000-8000-00000000000A").1 =
        ⟨200, [("albumID", "00000000-0000-4000-8000-00000000000a")]⟩ :=
  ⟨by rfl, by decide, by decide, by rfl⟩

/-- C3, amended: start from the empty table, on a server with any collation, and handle
any sequence of requests.  For an identifier that compares equal, under the collation
of the `albumID` column, to no identifier returned by a successful create of the
sequence, no row matches it, and `GET /album/id` with no backend failure answers 404
`message: Album not found`, so neither 200 nor 500. -/
theorem never_issued_not_found (collation : Collation) (steps : List (Oracle × Request))
    (id : String)
    (h : ∀ issued ∈ issuedIDs (run (World.init collation) steps).1,
      collation issued ≠ collation id) :
    (∀ row ∈ (run (World.init collation) steps).2.table,
      collation row.albumID ≠ collation id) ∧
    (getAlbumHandler (run (World.init collation) steps).2 none id).1 =
      ⟨404, [("message", "Album not found")]⟩ ∧
    (getAlbumHandler (run (World.init collation) steps).2 none id).1.status ≠ 200 ∧
    (getAlbumHandler (run (World.init collation) steps).2 none id).1.status ≠ 500 := by
  have habs := run_unmatched_absent collation steps id h
  have h404 := getAlbumHandler_absent (run (World.init collation) steps).2 id
    (by rw [run_collation]; exact habs)
  refine ⟨habs, h404, ?_, ?_⟩
  · rw [h404]
    decide
  · rw [h404]
    decide

/-- Witness for C3: after the example create, on a server that ignores case,
`nonexistent-id` matches no identifier issued. -/
theorem never_issued_not_found_witness :
    (getAlbumHandler (run (World.init caseInsensitiveCollation) [(⟨7, none⟩,
      Request.add (some (JValue.obj [("name", JValue.str "Abbey Road"),
        ("artist", JValue.str "The Beatles"),
        ("price", JValue.num ⟨false, 999, -2⟩)])))]).2 none "nonexistent-id").1 =
      ⟨404, [("message", "Album not found")]⟩ :=
  (never_issued_not_found caseInsensitiveCollation [(⟨7, none⟩,
      Request.add (some (JValue.obj [("name", JValue.str "Abbey Road"),
        ("artist", JValue.str "The Beatles"),
        ("price", JValue.num ⟨false, 999, -2⟩)])))] "nonexistent-id" (by decide)).2.1

/-- Under a binary collation the fetch of every identifier that no successful create
returned answers 404. -/
theorem never_issued_not_found_binary (steps : List (Oracle × Request)) (id : String)
    (h : id ∉ issuedIDs (run (World.init binaryCollation) steps).1) :
    (∀ row ∈ (run (World.init binaryCollation) steps).2.table, row.albumID ≠ id) ∧
    (getAlbumHandler (run (World.init binaryCollation) steps).2 none id).1 =
      ⟨404, [("message", "Album not found")]⟩ := by
  have habs := run_unmatched_absent binaryCollation steps id
    (fun issued hiss heq => h ((show issued = id from heq) ▸ hiss))
  exact ⟨habs, getAlbumHandler_absent (run (World.init binaryCollation) steps).2 id
    (by rw [run_collation]; exact habs)⟩

/-! ## What the create handler accepts -/

/-- C9, as stated, fails, in two ways.  Each body below is an object whose member
`name` is a string, whose member `artist` is a string and whose member `price` is a
number, and each is answered 400 with nothing written, although the backend is
healthy and the table empty.  In the first the number `1e999` is outside the range
of the `float64` field.  In the second a further member `Price`, which decodes into
the same field because keys are matched without regard to case, holds a string. -/
theorem add_rejects_objects_with_typed_fields :
    (List.lookup "name" [("name", JValue.str "Abbey Road"),
        ("artist", JValue.str "The Beatles"), ("price", JValue.num ⟨false, 1, 999⟩)] =
          some (JValue.str "Abbey Road") ∧
      List.lookup "artist" [("name", JValue.str "Abbey Road"),
        ("artist", JValue.str "The Beatles"), ("price", JValue.num ⟨false, 1, 999⟩)] =
          some (JValue.str "The Beatles") ∧
      List.lookup "price" [("name", JValue.str "Abbey Road"),
        ("artist", JValue.str "The Beatles"), ("price", JValue.num ⟨false, 1, 999⟩)] =
          some (JValue.num ⟨false, 1, 999⟩) ∧
      addHandler (World.init binaryCollation) 7 none (some (JValue.obj
        [("name", JValue.str "Abbey Road"), ("artist", JValue.str "The Beatles"),
         ("price", JValue.num ⟨false, 1, 999⟩)])) =
        (⟨400, [("error", "Invalid JSON data")]⟩, World.init binaryCollation)) ∧
    (List.lookup "name" [("Price", JValue.str "x"), ("price", JValue.num ⟨false, 1, 0⟩),
        ("name", JValue.str "a"), ("artist", JValue.str "b")] = some (JValue.str "a") ∧
      List.lookup "artist" [("Price", JValue.str "x"), ("price", JValue.num ⟨false, 1, 0⟩),
        ("name", JValue.str "a"), ("artist", JValue.str "b")] = some (JValue.str "b") ∧
      List.lookup "price" [("Price", JValue.str "x"), ("price", JValue.num ⟨false, 1, 0⟩),
        ("name", JValue.str "a"), ("artist", JValue.str "b")] =
          some (JValue.num ⟨false, 1, 0⟩) ∧
      addHandler (World.init binaryCollation) 7 none (some (JValue.obj
        [("Price", JValue.str "x"), ("price", JValue.num ⟨false, 1, 0⟩),
         ("name", JValue.str "a"), ("artist", JValue.str "b")])) =
        (⟨400, [("error", "Invalid JSON data")]⟩, World.init binaryCollation)) :=
  ⟨⟨by rfl, by rfl, by rfl, by rfl⟩, ⟨by rfl, by rfl, by rfl, by rfl⟩⟩

/-- C9, amended: no required-field enforcement on create.  Take a body that is an
object in which every member whose key is `name` or `artist`, exactly or under the
case folding of the decoder, is a string (the empty string included), every member
whose key is `price`, exactly or under that folding, is a number (zero included)
within the range of `float64`, and each of the three fields has such a member; let
`name`, `artist`, `price` be the values of the last member of each field.  Then
binding succeeds with exactly those values, the answer is never 400, the handler goes
on to one insert carrying those values unchanged, and the answer is 201 when the
insert succeeds. -/
theorem add_accepts_conforming_object (w : World) (rnd : Nat) (fault : Option String)
    (members : List (String × JValue)) (name artist : String) (price : JNumber)
    (ht : members.all typeConforms = true) (hr : members.all priceInRange = true)
    (hn : memberFor members Field.name = some (JValue.str name))
    (ha : memberFor members Field.artist = some (JValue.str artist))
    (hp : memberFor members Field.price = some (JValue.num price)) :
    ShouldBindJSON (some (JValue.obj members)) = Except.ok ⟨name, artist, ⟨price⟩⟩ ∧
    (addHandler w rnd fault (some (JValue.obj members))).1.status ≠ 400 ∧
    (addHandler w rnd fault (some (JValue.obj members))).2.trace = w.trace ++
      [Effect.uuidNew (newAlbumID rnd),
       Effect.exec insertQuery [SqlArg.text (newAlbumID rnd), SqlArg.text name,
         SqlArg.text artist, SqlArg.double ⟨price⟩]] ∧
    ((dbExec (w.emit (Effect.uuidNew (newAlbumID rnd))) fault (newAlbumID rnd)
        name artist ⟨price⟩).1 = none →
      (addHandler w rnd fault (some (JValue.obj members))).1 =
        ⟨201, [("albumID", newAlbumID rnd)]⟩) := by
  obtain ⟨he, hnm, har, hpr⟩ := decodeObject_conforming members ht hr
  rw [hn] at hnm
  rw [ha] at har
  rw [hp] at hpr
  simp only at hnm har hpr
  have hb : ShouldBindJSON (some (JValue.obj members)) = Except.ok ⟨name, artist, ⟨price⟩⟩ := by
    simp only [ShouldBindJSON, he]
    rw [← hnm, ← har, ← hpr]
  exact ⟨hb, addHandler_bound_facts w rnd fault (some (JValue.obj members))
    ⟨name, artist, ⟨price⟩⟩ hb⟩

/-- Witness for C9: the body with empty name, empty artist and price zero is bound and
created. -/
theorem add_accepts_conforming_object_witness :
    ShouldBindJSON (some (JValue.obj [("name", JValue.str ""), ("artist", JValue.str ""),
      ("price", JValue.num ⟨false, 0, 0⟩)])) = Except.ok ⟨"", "", ⟨⟨false, 0, 0⟩⟩⟩ ∧
    (addHandler (World.init caseInsensitiveCollation) 7 none
      (some (JValue.obj [("name", JValue.str ""),
      ("artist", JValue.str ""), ("price", JValue.num ⟨false, 0, 0⟩)]))).1 =
        ⟨201, [("albumID", "00000000-0000-4000-8000-000000000007")]⟩ :=
  ⟨(add_accepts_conforming_object (World.init caseInsensitiveCollation)
    7 none [("name", JValue.str ""),
      ("artist", JValue.str ""), ("price", JValue.num ⟨false, 0, 0⟩)] "" "" ⟨false, 0, 0⟩
      (by rfl) (by rfl) (by rfl) (by rfl) (by rfl)).1,
   (add_accepts_conforming_object (World.init caseInsensitiveCollation)
     7 none [("name", JValue.str ""),
      ("artist", JValue.str ""), ("price", JValue.num ⟨false, 0, 0⟩)] "" "" ⟨false, 0, 0⟩
      (by rfl) (by rfl) (by rfl) (by rfl) (by rfl)).2.2.2 (by rfl)⟩

end AlbumService
